import Mathlib

/-!
Shallow embedding of the opti-cms-client library (src/src/client.ts via
src/src/index.ts, types in src/src/types.ts), covering the token lifecycle
and the request-dispatch pipeline of the class OptiCmsClient.

Modelling conventions:
- JavaScript numbers that hold epoch milliseconds or second lifetimes are
  embedded as Int; HTTP status codes as Nat.
- Optional values (undefined) are embedded as Option.
- JavaScript truthiness on strings and numbers is embedded explicitly: an
  empty string and the number 0 are falsy.
- JavaScript object records (headers, query params) are embedded as ordered
  association lists with object-spread semantics: assigning to an existing
  key updates the value in place (the key keeps its original position),
  assigning a fresh key appends it.
- The network is an oracle: each operation takes the outcome of the fetch
  calls it may perform (success with a parsed or unparseable body, a non-2xx
  response with an optional structured error body, a timeout abort, or an
  opaque transport error) and every operation additionally returns the list
  of network calls it performed.
- A thrown value is embedded as Except.error of CmsError: configError for a
  plain Error thrown before any network call, apiError for thrown
  ErrorResponse objects, jsonParseError for a JSON parse failure on a 2xx
  body, transport for opaque network failures rethrown as-is.
-/

deriving instance DecidableEq for Except

namespace OptiCms

/-- OAuthCredentials from types.ts: client id, secret, optional act-as. -/
structure OAuthCredentials where
  clientId : String
  clientSecret : String
  actAs : Option String
deriving DecidableEq, Repr

/-- TokenResponse from types.ts: body of a successful token exchange. -/
structure TokenResponse where
  access_token : String
  expires_in : Int
  token_type : String
deriving DecidableEq, Repr

/-- ApiVersion from types.ts. -/
inductive ApiVersion
  | preview2
  | preview3
deriving DecidableEq, Repr

/-- ValidationError from types.ts. -/
structure ValidationError where
  field : Option String
  message : String
deriving DecidableEq, Repr

/-- ErrorResponse from types.ts; the field `instance` is spelled inst here
because instance is a Lean keyword. -/
structure ErrorResponse where
  type : String
  title : String
  status : Nat
  inst : Option String
  details : Option String
  code : Option String
  errors : Option (List ValidationError)
deriving DecidableEq, Repr

/-- Result of casting a parsed JSON error body to Partial ErrorResponse:
every field may be absent. -/
structure PartialErrorResponse where
  type : Option String
  title : Option String
  status : Option Nat
  inst : Option String
  details : Option String
  code : Option String
  errors : Option (List ValidationError)
deriving DecidableEq, Repr

/-- ContentItem from types.ts (the open-ended extra fields are opaque to the
client and are not modelled). -/
structure ContentItem where
  id : String
  contentType : String
  name : String
deriving DecidableEq, Repr

/-- PaginatedResponse from types.ts. -/
structure PaginatedResponse (α : Type) where
  items : List α
  pageIndex : Int
  pageSize : Int
  totalItemCount : Int
deriving DecidableEq, Repr

/-- ApiResponse from types.ts. -/
structure ApiResponse (α : Type) where
  data : α
  status : Nat
  etag : Option String
deriving DecidableEq, Repr

/-- JavaScript `a || d` on an optional string field: absent, or present but
empty (falsy), falls back to the default. -/
def jsOrStr : Option String → String → String
  | some s, d => if s = "" then d else s
  | none, d => d

/-- JavaScript `a || d` on an optional numeric field: absent, or present but
zero (falsy), falls back to the default. -/
def jsOrNat : Option Nat → Nat → Nat
  | some n, d => if n = 0 then d else n
  | none, d => d

/-- Truthiness of an optional string: present and nonempty. -/
def strTruthy : Option String → Bool
  | some s => s != ""
  | none => false

/-! JavaScript object records embedded as ordered association lists. -/

/-- Ordered association list standing for a JavaScript object record. -/
abbrev Obj (α : Type) : Type := List (String × α)

/-- JavaScript property assignment `m[k] = v`: updates an existing key in
place (the key keeps its position), otherwise appends the new key. -/
def objInsert : Obj α → String → α → Obj α
  | [], k, v => [(k, v)]
  | p :: t, k, v => if p.1 = k then (k, v) :: t else p :: objInsert t k v

/-- JavaScript object spread `\x7b...a, ...b\x7d`: assigns every entry of b,
in order, on top of a. -/
def objSpread (a b : Obj α) : Obj α :=
  b.foldl (fun acc p => objInsert acc p.1 p.2) a

/-- Property lookup: value at the key, if present. -/
def objGet (m : Obj α) (k : String) : Option α :=
  (m.find? fun p => p.1 == k).map Prod.snd

/-- Lookup with a fallback: the primary result when present, else the
fallback result. -/
def objLookupOr (primary fallback : Option α) : Option α :=
  match primary with
  | some v => some v
  | none => fallback

/-- Query-parameter value from types.ts RequestOptions: string, number or
boolean. -/
inductive ParamValue
  | str (s : String)
  | num (n : Int)
  | bool (b : Bool)
deriving DecidableEq, Repr

/-- JavaScript String(value) applied to a query-parameter value. -/
def ParamValue.jsString : ParamValue → String
  | .str s => s
  | .num n => toString n
  | .bool b => if b then "true" else "false"

/-- RequestOptions from types.ts: per-call headers, query params, etag. -/
structure RequestOptions where
  headers : Obj String
  params : Obj ParamValue
  etag : Option String
deriving DecidableEq, Repr

/-- Immutable client settings resolved by the OptiCmsClient constructor. -/
structure ClientSettings where
  baseUrl : String
  tokenEndpoint : String
  timeout : Int
  version : ApiVersion
  autoRefreshToken : Bool
  defaultHeaders : Obj String
  credentials : Option OAuthCredentials
deriving DecidableEq, Repr

/-- Mutable token state of the client: the private fields accessToken and
tokenExpiresAt. -/
structure ClientState where
  accessToken : Option String
  tokenExpiresAt : Option Int
deriving DecidableEq, Repr

/-- Values thrown by the client, as a tagged sum: a plain Error message
(configuration failures), a thrown ErrorResponse object, a JSON parse
failure on a successful body, or an opaque transport failure rethrown
as-is. -/
inductive CmsError
  | configError (msg : String)
  | apiError (e : ErrorResponse)
  | jsonParseError
  | transport (e : String)
deriving DecidableEq, Repr

/-- Network call performed by the client: the token-exchange POST of
authenticate, or the fetch of the dispatcher with the request it sends. -/
inductive NetCall
  | tokenExchange
  | fetch (url : String) (method : String) (headers : Obj String)
      (query : List (String × String)) (hasBody : Bool)
deriving DecidableEq, Repr

/-- Oracle for the token-exchange fetch in authenticate: a 2xx response with
a parsed TokenResponse body, a 2xx response whose body fails to parse, a
non-2xx response with an optional structured error body (none when the body
is unparseable), an abort by the timeout timer, or an opaque transport
error. -/
inductive TokenExchangeOutcome
  | ok (tok : TokenResponse)
  | okBadBody
  | httpError (status : Nat) (errBody : Option PartialErrorResponse)
  | timeout
  | netError (e : String)
deriving DecidableEq, Repr

/-- Oracle for the dispatcher fetch: a 2xx response carrying the parsed body
(none when the body fails to parse) and the raw ETag header, a non-2xx
response with an optional structured error body, an abort by the timeout
timer, or an opaque transport error. -/
inductive FetchOutcome (α : Type)
  | httpOk (status : Nat) (body : Option α) (etagHeader : Option String)
  | httpError (status : Nat) (errBody : Option PartialErrorResponse)
  | timeout
  | netError (e : String)
deriving DecidableEq, Repr

/-- Default error built by the client for a non-2xx response before the body
is examined: about:blank type, a title derived from the HTTP status, the
HTTP status itself. -/
def defaultHttpError (titlePrefix : String) (status : Nat) : ErrorResponse :=
  { type := "about:blank"
    title := titlePrefix ++ toString status
    status := status
    inst := none
    details := none
    code := none
    errors := none }

/-- Merge of a parsed error body over the default error, exactly as the
client does it: type, title and status use JavaScript `||` against the
default, the remaining fields are taken from the body as-is. -/
def mergeErrorBody (d : ErrorResponse) : Option PartialErrorResponse → ErrorResponse
  | none => d
  | some p =>
    { type := jsOrStr p.type d.type
      title := jsOrStr p.title d.title
      status := jsOrNat p.status d.status
      inst := p.inst
      details := p.details
      code := p.code
      errors := p.errors }

/-- Error thrown by authenticate when the token-exchange fetch is aborted by
the timeout timer. -/
def authTimeoutError : ErrorResponse :=
  { type := "about:blank"
    title := "Authentication timeout"
    status := 408
    inst := none
    details := none
    code := some "TIMEOUT"
    errors := none }

/-- Error thrown by the dispatcher when its fetch is aborted by the timeout
timer. -/
def requestTimeoutError : ErrorResponse :=
  { type := "about:blank"
    title := "Request timeout"
    status := 408
    inst := none
    details := none
    code := some "TIMEOUT"
    errors := none }

/-- JavaScript `credentials || this.credentials` in authenticate. -/
def resolveCreds (credsArg configured : Option OAuthCredentials) :
    Option OAuthCredentials :=
  match credsArg with
  | some c => some c
  | none => configured

namespace OptiCmsClient

/-- Method authenticate of OptiCmsClient: resolves credentials, performs the
token-exchange POST, and on success stores the returned token together with
the computed expiry (now + expires_in seconds in milliseconds). Returns the
new token state, the network calls performed, and the result. -/
def authenticate (s : ClientSettings) (st : ClientState)
    (credsArg : Option OAuthCredentials) (now : Int)
    (outcome : TokenExchangeOutcome) :
    ClientState × List NetCall × Except CmsError TokenResponse :=
  match resolveCreds credsArg s.credentials with
  | none =>
    (st, [], .error (.configError "OAuth credentials are required for authentication"))
  | some _ =>
    match outcome with
    | .ok tok =>
      ({ accessToken := some tok.access_token
         tokenExpiresAt := some (now + tok.expires_in * 1000) },
       [.tokenExchange], .ok tok)
    | .okBadBody => (st, [.tokenExchange], .error .jsonParseError)
    | .httpError status errBody =>
      (st, [.tokenExchange],
       .error (.apiError (mergeErrorBody
         (defaultHttpError "Authentication failed with status " status) errBody)))
    | .timeout => (st, [.tokenExchange], .error (.apiError authTimeoutError))
    | .netError e => (st, [.tokenExchange], .error (.transport e))

/-- Method isTokenExpired of OptiCmsClient: true when tokenExpiresAt is
falsy (absent or 0), else true exactly when now has reached the expiry minus
a 30000 ms buffer. -/
def isTokenExpired (st : ClientState) (now : Int) : Bool :=
  match st.tokenExpiresAt with
  | none => true
  | some e => if e = 0 then true else decide (now ≥ e - 30000)

/-- Truthiness of the stored access token: present and nonempty. -/
def tokenTruthy (st : ClientState) : Bool :=
  strTruthy st.accessToken

/-- Condition of ensureAuthenticated for triggering an exchange: no (truthy)
token, or an expired token while auto-refresh is on. -/
def needsAuth (s : ClientSettings) (st : ClientState) (now : Int) : Bool :=
  !tokenTruthy st || (isTokenExpired st now && s.autoRefreshToken)

/-- Method ensureAuthenticated of OptiCmsClient: when an exchange is needed,
fails if no credentials are configured, else delegates to authenticate with
no explicit credentials; otherwise does nothing. -/
def ensureAuthenticated (s : ClientSettings) (st : ClientState) (now : Int)
    (outcome : TokenExchangeOutcome) :
    ClientState × List NetCall × Except CmsError Unit :=
  if needsAuth s st now then
    match s.credentials with
    | none =>
      (st, [],
       .error (.configError "No access token available and no credentials configured for authentication"))
    | some _ =>
      match authenticate s st none now outcome with
      | (st1, tr, .ok _) => (st1, tr, .ok ())
      | (st1, tr, .error e) => (st1, tr, .error e)
  else (st, [], .ok ())

end OptiCmsClient

/-- Header object built by the dispatcher, lines 163-178 of client.ts:
object spread of default headers then per-call headers, then assignment of
the Authorization bearer header when the stored token is truthy, then the
merge-patch content type when the method is exactly PATCH, then If-Match
when the etag option is truthy. -/
def buildHeaders (defaults callerHeaders : Obj String)
    (accessToken : Option String) (method : Option String)
    (etag : Option String) : Obj String :=
  let h := objSpread defaults callerHeaders
  let h := match accessToken with
    | some t => if t = "" then h else objInsert h "Authorization" ("Bearer " ++ t)
    | none => h
  let h := if method = some "PATCH" then
      objInsert h "Content-Type" "application/merge-patch+json"
    else h
  match etag with
  | some e => if e = "" then h else objInsert h "If-Match" e
  | none => h

/-- Query string entries: each param value rendered with String(value), in
the insertion order of the params object. -/
def serializeParams (ps : Obj ParamValue) : List (String × String) :=
  ps.map fun p => (p.1, p.2.jsString)

/-- JavaScript `options?.method || 'GET'`. -/
def jsMethod : Option String → String
  | some m => if m = "" then "GET" else m
  | none => "GET"

/-- JavaScript `response.headers.get('ETag') || undefined`: an absent or
empty header becomes undefined. -/
def jsEtagHeader : Option String → Option String
  | some s => if s = "" then none else some s
  | none => none

/-- Response classification of the dispatcher, lines 183-244 of client.ts:
a 2xx response with a parsed body becomes an ApiResponse carrying the status
and the ETag header, a 2xx response with an unparseable body rethrows the
parse failure, a non-2xx response throws the merged ErrorResponse, a timeout
abort throws the fixed 408 TIMEOUT error, and any other transport error is
rethrown as-is. -/
def requestClassify : FetchOutcome α → Except CmsError (ApiResponse α)
  | .httpOk status body etagHeader =>
    match body with
    | some d => .ok { data := d, status := status, etag := jsEtagHeader etagHeader }
    | none => .error .jsonParseError
  | .httpError status errBody =>
    .error (.apiError (mergeErrorBody
      (defaultHttpError "Request failed with status " status) errBody))
  | .timeout => .error (.apiError requestTimeoutError)
  | .netError e => .error (.transport e)

namespace OptiCmsClient

/-- Method request of OptiCmsClient: ensures authentication (propagating any
failure unchanged), builds the URL, query and headers from the refreshed
token state, performs the fetch, and classifies the outcome with
requestClassify. -/
def request (s : ClientSettings) (st : ClientState) (endpoint : String)
    (opts : RequestOptions) (method : Option String) (hasBody : Bool)
    (now : Int) (authOutcome : TokenExchangeOutcome)
    (fetchOutcome : FetchOutcome α) :
    ClientState × List NetCall × Except CmsError (ApiResponse α) :=
  match ensureAuthenticated s st now authOutcome with
  | (st1, tr, .error e) => (st1, tr, .error e)
  | (st1, tr, .ok _) =>
    (st1,
     tr ++ [NetCall.fetch (s.baseUrl ++ endpoint) (jsMethod method)
       (buildHeaders s.defaultHeaders opts.headers st1.accessToken method opts.etag)
       (serializeParams opts.params) hasBody],
     requestClassify fetchOutcome)

/-- Method getContent of OptiCmsClient: GET of a single item. -/
def getContent (s : ClientSettings) (st : ClientState) (contentId : String)
    (opts : RequestOptions) (now : Int) (authOutcome : TokenExchangeOutcome)
    (fetchOutcome : FetchOutcome ContentItem) :
    ClientState × List NetCall × Except CmsError (ApiResponse ContentItem) :=
  request s st ("/experimental/content/" ++ contentId) opts none false now
    authOutcome fetchOutcome

/-- Params object built by listContent: spread of the caller params, then
pageIndex assigned when it was explicitly supplied, then pageSize assigned
when it was explicitly supplied. -/
def listContentParams (callerParams : Obj ParamValue)
    (pageIndex pageSize : Option Int) : Obj ParamValue :=
  let p := objSpread [] callerParams
  let p := match pageIndex with
    | some i => objInsert p "pageIndex" (.num i)
    | none => p
  match pageSize with
  | some n => objInsert p "pageSize" (.num n)
  | none => p

/-- Method listContent of OptiCmsClient: GET of a paged collection with the
page params injected, returning the data field of the ApiResponse
(unwrapped). -/
def listContent (s : ClientSettings) (st : ClientState) (containerKey : String)
    (opts : RequestOptions) (pageIndex pageSize : Option Int) (now : Int)
    (authOutcome : TokenExchangeOutcome)
    (fetchOutcome : FetchOutcome (PaginatedResponse ContentItem)) :
    ClientState × List NetCall × Except CmsError (PaginatedResponse ContentItem) :=
  let params := listContentParams opts.params pageIndex pageSize
  match request s st ("/experimental/content/" ++ containerKey ++ "/items")
      { headers := opts.headers, params := params, etag := opts.etag }
      none false now authOutcome fetchOutcome with
  | (st1, tr, .ok resp) => (st1, tr, .ok resp.data)
  | (st1, tr, .error e) => (st1, tr, .error e)

/-- Method createContent of OptiCmsClient: POST with the partial item as
body. -/
def createContent (s : ClientSettings) (st : ClientState)
    (opts : RequestOptions) (now : Int) (authOutcome : TokenExchangeOutcome)
    (fetchOutcome : FetchOutcome ContentItem) :
    ClientState × List NetCall × Except CmsError (ApiResponse ContentItem) :=
  request s st "/content" opts (some "POST") true now authOutcome fetchOutcome

/-- Method updateContent of OptiCmsClient: throws the preview2 configuration
error before any network activity when the configured version is preview2,
else dispatches a PATCH with the updates as body. -/
def updateContent (s : ClientSettings) (st : ClientState) (contentId : String)
    (opts : RequestOptions) (now : Int) (authOutcome : TokenExchangeOutcome)
    (fetchOutcome : FetchOutcome ContentItem) :
    ClientState × List NetCall × Except CmsError (ApiResponse ContentItem) :=
  if s.version = ApiVersion.preview2 then
    (st, [],
     .error (.configError "Use PUT method for preview2. PATCH is only available in preview3."))
  else
    request s st ("/content/" ++ contentId) opts (some "PATCH") true now
      authOutcome fetchOutcome

/-- Method deleteContent of OptiCmsClient: DELETE of an item. -/
def deleteContent (s : ClientSettings) (st : ClientState) (contentId : String)
    (opts : RequestOptions) (now : Int) (authOutcome : TokenExchangeOutcome)
    (fetchOutcome : FetchOutcome ContentItem) :
    ClientState × List NetCall × Except CmsError (ApiResponse ContentItem) :=
  request s st ("/content/" ++ contentId) opts (some "DELETE") false now
    authOutcome fetchOutcome

/-- Method setAccessToken of OptiCmsClient: stores the token, and updates
the expiry only when the lifetime argument is truthy (present and nonzero),
computed as in authenticate. -/
def setAccessToken (st : ClientState) (now : Int) (token : String)
    (expiresIn : Option Int) : ClientState :=
  let st1 := { st with accessToken := some token }
  match expiresIn with
  | some e => if e = 0 then st1 else { st1 with tokenExpiresAt := some (now + e * 1000) }
  | none => st1

/-- Method getTokenExpiresAt of OptiCmsClient. -/
def getTokenExpiresAt (st : ClientState) : Option Int :=
  st.tokenExpiresAt

end OptiCmsClient

/-! Definitions following the words of the specification, for comparison
with the embedded code. -/

/-- Modelled from the spec words for isExpired: true if no expiry is
recorded, true if an expiry e is recorded and now is at least e minus the
30000 ms buffer, false otherwise. -/
def specIsExpired (st : ClientState) (now : Int) : Bool :=
  match st.tokenExpiresAt with
  | none => true
  | some e => decide (now ≥ e - 30000)

/-- Modelled from the claim words for the error merge: fields present in the
parsed body populate the error, absent type/title/status fields are
backfilled with the generic defaults derived from the HTTP status. -/
def claimedErrorMerge (httpStatus : Nat) (p : PartialErrorResponse) :
    ErrorResponse :=
  { type := p.type.getD "about:blank"
    title := p.title.getD ("Request failed with status " ++ toString httpStatus)
    status := p.status.getD httpStatus
    inst := p.inst
    details := p.details
    code := p.code
    errors := p.errors }

/-- Modelled from the claim words for listContent params: the pageIndex and
pageSize entries, when supplied, appended in that order after the
caller-supplied params. -/
def claimedListParams (callerParams : Obj ParamValue)
    (pageIndex pageSize : Option Int) : Obj ParamValue :=
  callerParams
    ++ (match pageIndex with
        | some i => [("pageIndex", ParamValue.num i)]
        | none => [])
    ++ (match pageSize with
        | some n => [("pageSize", ParamValue.num n)]
        | none => [])

/-! Concrete sample configurations and values used to instantiate the
theorems. -/

/-- Sample OAuth credentials. -/
def sampleCreds : OAuthCredentials :=
  { clientId := "id-1", clientSecret := "secret-1", actAs := none }

/-- Settings of a client holding an externally supplied token, with
auto-refresh left at its default (on) and no credentials configured. -/
def extSettings : ClientSettings :=
  { baseUrl := "https://api.cms.optimizely.com/preview3"
    tokenEndpoint := "https://api.cms.optimizely.com/oauth/token"
    timeout := 30000
    version := ApiVersion.preview3
    autoRefreshToken := true
    defaultHeaders := [("Content-Type", "application/json")]
    credentials := none }

/-- Same settings with credentials configured. -/
def credSettings : ClientSettings :=
  { extSettings with credentials := some sampleCreds }

/-- Same settings with auto-refresh disabled. -/
def noRefreshSettings : ClientSettings :=
  { extSettings with autoRefreshToken := false }

/-- Settings of a client configured for the legacy preview2 version. -/
def legacySettings : ClientSettings :=
  { credSettings with version := ApiVersion.preview2 }

/-- Token state of a client holding an external token with no recorded
expiry. -/
def extState : ClientState :=
  { accessToken := some "external-token", tokenExpiresAt := none }

/-- Token state holding a token together with a recorded expiry. -/
def cexPrevState : ClientState :=
  { accessToken := some "old-token", tokenExpiresAt := some 1700000000000 }

/-- Structured 404 error body whose type field is present but empty. -/
def cexErrBody : PartialErrorResponse :=
  { type := some "", title := some "Not Found", status := some 404,
    inst := none, details := none, code := none, errors := none }

/-- Sample paged response. -/
def samplePage : PaginatedResponse ContentItem :=
  { items := [], pageIndex := 1, pageSize := 50, totalItemCount := 0 }

/-! General lemmas about the JavaScript object embedding. -/

/-- Assigning a key makes lookup of that key return the assigned value. -/
theorem objGet_insert_self (m : Obj α) (k : String) (v : α) :
    objGet (objInsert m k v) k = some v := by
  induction m with
  | nil => simp [objGet, objInsert, List.find?]
  | cons p t ih =>
    by_cases hp : p.1 = k
    · simp [objGet, objInsert, List.find?, hp]
    · simpa [objGet, objInsert, List.find?, hp] using ih

/-- Assigning one key does not change lookup of a different key. -/
theorem objGet_insert_ne (m : Obj α) (k : String) (v : α) (k' : String)
    (h : k' ≠ k) :
    objGet (objInsert m k v) k' = objGet m k' := by
  have hb : (k == k') = false := beq_false_of_ne fun hc => h hc.symm
  induction m with
  | nil => simp [objGet, objInsert, List.find?, hb]
  | cons p t ih =>
    by_cases hp : p.1 = k
    · have hstep : objInsert (p :: t) k v = (k, v) :: t := by
        simp [objInsert, hp]
      have hph : (p.1 == k') = false := by rw [hp]; exact hb
      rw [hstep]
      simp [objGet, List.find?, hb, hph]
    · have hstep : objInsert (p :: t) k v = p :: objInsert t k v := by
        simp [objInsert, hp]
      rw [hstep]
      by_cases hq : p.1 = k'
      · have hph : (p.1 == k') = true := beq_iff_eq.mpr hq
        simp [objGet, List.find?, hph]
      · have hph : (p.1 == k') = false := beq_false_of_ne hq
        simp only [objGet, List.find?, hph] at ih ⊢
        exact ih

/-- Spread on top of a base object: the entries of the spread object win,
the base fills in the rest. -/
theorem objGet_spread (b : Obj α) : ∀ (a : Obj α) (k : String),
    objGet (objSpread a b) k
      = objLookupOr (objGet (objSpread [] b) k) (objGet a k) := by
  induction b with
  | nil =>
    intro a k
    simp [objSpread, objGet, objLookupOr, List.find?]
  | cons p t ih =>
    intro a k
    have h1 : objSpread a (p :: t) = objSpread (objInsert a p.1 p.2) t := rfl
    have h2 : objSpread ([] : Obj α) (p :: t)
        = objSpread (objInsert [] p.1 p.2) t := rfl
    rw [h1, h2, ih (objInsert a p.1 p.2) k, ih (objInsert [] p.1 p.2) k]
    cases hg : objGet (objSpread ([] : Obj α) t) k with
    | some v => rfl
    | none =>
      by_cases hk : k = p.1
      · subst hk
        rw [objGet_insert_self, objGet_insert_self]
        simp [objLookupOr]
      · rw [objGet_insert_ne _ _ _ _ hk, objGet_insert_ne _ _ _ _ hk]
        simp [objGet, objLookupOr, List.find?]

/-- Assigning a key that appears nowhere in the object appends it. -/
theorem objInsert_eq_append (m : Obj α) (k : String) (v : α)
    (h : ∀ p ∈ m, p.1 ≠ k) :
    objInsert m k v = m ++ [(k, v)] := by
  induction m with
  | nil => rfl
  | cons p t ih =>
    have hp : ¬ p.1 = k := h p (by simp)
    have ht : ∀ q ∈ t, q.1 ≠ k := fun q hq => h q (by simp [hq])
    simp [objInsert, hp, ih ht]

/-- Spreading entries with fresh, pairwise distinct keys onto a base object
appends them in order. -/
theorem objSpread_eq_append (b : Obj α) : ∀ (a : Obj α),
    (∀ p ∈ b, ∀ q ∈ a, q.1 ≠ p.1) → (b.map Prod.fst).Nodup →
    objSpread a b = a ++ b := by
  induction b with
  | nil =>
    intro a _ _
    simp [objSpread]
  | cons p t ih =>
    intro a hfresh hnodup
    have hstep : objSpread a (p :: t) = objSpread (objInsert a p.1 p.2) t := rfl
    have hp : ∀ q ∈ a, q.1 ≠ p.1 := hfresh p (by simp)
    rw [hstep, objInsert_eq_append a p.1 p.2 hp]
    simp only [List.map_cons, List.nodup_cons] at hnodup
    rw [ih (a ++ [(p.1, p.2)]) ?_ hnodup.2]
    · simp
    · intro q hq r hr
      rcases List.mem_append.mp hr with hra | hrp
      · exact hfresh q (by simp [hq]) r hra
      · have hr2 : r = (p.1, p.2) := by simpa using hrp
        subst hr2
        intro hc
        apply hnodup.1
        have hmem : q.1 ∈ t.map Prod.fst := List.mem_map_of_mem Prod.fst hq
        rw [show p.1 = q.1 from hc]
        exact hmem

/-- Spreading an object with pairwise distinct keys into an empty object
reproduces it. -/
theorem objSpread_nil_of_nodup (b : Obj α)
    (h : (b.map Prod.fst).Nodup) : objSpread ([] : Obj α) b = b := by
  have hbase := objSpread_eq_append b []
    (fun p _ q hq => absurd hq (List.not_mem_nil q)) h
  simpa using hbase

/-- Behavior of the dispatcher when the authentication step succeeds: the
state is the post-authentication state, the trace extends the
authentication trace with the single fetch built from the refreshed state,
and the result is the classification of the fetch outcome. -/
theorem request_of_ensure_ok (s : ClientSettings) (st : ClientState)
    (endpoint : String) (opts : RequestOptions) (method : Option String)
    (hasBody : Bool) (now : Int) (authO : TokenExchangeOutcome)
    (fo : FetchOutcome α)
    (he : (OptiCmsClient.ensureAuthenticated s st now authO).2.2 = Except.ok ()) :
    OptiCmsClient.request s st endpoint opts method hasBody now authO fo
      = ((OptiCmsClient.ensureAuthenticated s st now authO).1,
         (OptiCmsClient.ensureAuthenticated s st now authO).2.1
           ++ [NetCall.fetch (s.baseUrl ++ endpoint) (jsMethod method)
                (buildHeaders s.defaultHeaders opts.headers
                  (OptiCmsClient.ensureAuthenticated s st now authO).1.accessToken
                  method opts.etag)
                (serializeParams opts.params) hasBody],
         requestClassify fo) := by
  rcases hE : OptiCmsClient.ensureAuthenticated s st now authO with ⟨st1, tr, r⟩
  rw [hE] at he
  cases r with
  | error e => simp at he
  | ok u =>
    cases u
    unfold OptiCmsClient.request
    rw [hE]

/-- C3: for every token state and every current time now (a nonnegative
epoch-milliseconds timestamp), isTokenExpired returns true if no expiry is
recorded, true if an expiry e is recorded and now is at least e minus the
fixed 30000 ms buffer, and false otherwise. -/
theorem isTokenExpired_matches_spec (st : ClientState) (now : Int)
    (hnow : 0 ≤ now) :
    OptiCmsClient.isTokenExpired st now = specIsExpired st now := by
  unfold OptiCmsClient.isTokenExpired specIsExpired
  cases st.tokenExpiresAt with
  | none => rfl
  | some e =>
    by_cases he : e = 0
    · subst he
      simp
      omega
    · simp [he]

/-- Witness for C3 at a concrete state and time. -/
theorem isTokenExpired_matches_spec_witness :
    OptiCmsClient.isTokenExpired
        { accessToken := some "t", tokenExpiresAt := some 100000 } 80000
      = specIsExpired
        { accessToken := some "t", tokenExpiresAt := some 100000 } 80000 :=
  isTokenExpired_matches_spec
    { accessToken := some "t", tokenExpiresAt := some 100000 } 80000 (by decide)

/-- C4: for every client holding a (truthy) access token that counts as
expired, with auto-refresh disabled, ensureAuthenticated performs no network
call, does not fail, and leaves the token state unchanged. -/
theorem ensureAuthenticated_noop_when_refresh_disabled
    (s : ClientSettings) (st : ClientState) (now : Int)
    (authO : TokenExchangeOutcome)
    (htok : OptiCmsClient.tokenTruthy st = true)
    (_hexp : OptiCmsClient.isTokenExpired st now = true)
    (href : s.autoRefreshToken = false) :
    OptiCmsClient.ensureAuthenticated s st now authO = (st, [], Except.ok ()) := by
  have hna : OptiCmsClient.needsAuth s st now = false := by
    simp [OptiCmsClient.needsAuth, htok, href]
  simp [OptiCmsClient.ensureAuthenticated, hna]

/-- Witness for C4: expired token, auto-refresh off, nothing happens. -/
theorem ensureAuthenticated_noop_when_refresh_disabled_witness :
    OptiCmsClient.ensureAuthenticated noRefreshSettings cexPrevState
        1700000005000 TokenExchangeOutcome.timeout
      = (cexPrevState, [], Except.ok ()) :=
  ensureAuthenticated_noop_when_refresh_disabled noRefreshSettings cexPrevState
    1700000005000 TokenExchangeOutcome.timeout (by decide) (by decide) (by decide)

/-- C5: for every client configured with the legacy preview2 version,
updateContent fails with the configuration error before any network call
(empty call trace) and leaves the token state unchanged. -/
theorem updateContent_preview2_config_error
    (s : ClientSettings) (st : ClientState) (contentId : String)
    (opts : RequestOptions) (now : Int) (authO : TokenExchangeOutcome)
    (fo : FetchOutcome ContentItem)
    (hv : s.version = ApiVersion.preview2) :
    OptiCmsClient.updateContent s st contentId opts now authO fo
      = (st, [],
         Except.error (CmsError.configError
           "Use PUT method for preview2. PATCH is only available in preview3.")) := by
  simp [OptiCmsClient.updateContent, hv]

/-- Witness for C5 on a preview2 client. -/
theorem updateContent_preview2_config_error_witness :
    OptiCmsClient.updateContent legacySettings extState "c-1" ⟨[], [], none⟩ 0
        TokenExchangeOutcome.timeout FetchOutcome.timeout
      = (extState, [],
         Except.error (CmsError.configError
           "Use PUT method for preview2. PATCH is only available in preview3.")) :=
  updateContent_preview2_config_error legacySettings extState "c-1" ⟨[], [], none⟩ 0
    TokenExchangeOutcome.timeout FetchOutcome.timeout rfl

/-- C10: authenticate is atomic with respect to token state: every failing
run leaves the stored token and expiry exactly as they were, and a
successful run replaces both together with the returned token and the
computed expiry. -/
theorem authenticate_atomic_token_state (s : ClientSettings) (st : ClientState)
    (credsArg : Option OAuthCredentials) (now : Int)
    (outcome : TokenExchangeOutcome) :
    (∀ e, (OptiCmsClient.authenticate s st credsArg now outcome).2.2 = Except.error e →
        (OptiCmsClient.authenticate s st credsArg now outcome).1 = st)
    ∧ ∀ tok, (OptiCmsClient.authenticate s st credsArg now outcome).2.2 = Except.ok tok →
        (OptiCmsClient.authenticate s st credsArg now outcome).1
          = { accessToken := some tok.access_token
              tokenExpiresAt := some (now + tok.expires_in * 1000) } := by
  cases hc : resolveCreds credsArg s.credentials with
  | none =>
    refine ⟨fun e _ => ?_, fun tok htok => ?_⟩
    · simp [OptiCmsClient.authenticate, hc]
    · simp [OptiCmsClient.authenticate, hc] at htok
  | some c =>
    cases outcome with
    | ok tok =>
      refine ⟨fun e he => ?_, fun tok2 h2 => ?_⟩
      · simp [OptiCmsClient.authenticate, hc] at he
      · simp [OptiCmsClient.authenticate, hc] at h2
        simp [OptiCmsClient.authenticate, hc, h2]
    | okBadBody =>
      refine ⟨fun e _ => ?_, fun tok h => ?_⟩
      · simp [OptiCmsClient.authenticate, hc]
      · simp [OptiCmsClient.authenticate, hc] at h
    | httpError status errBody =>
      refine ⟨fun e _ => ?_, fun tok h => ?_⟩
      · simp [OptiCmsClient.authenticate, hc]
      · simp [OptiCmsClient.authenticate, hc] at h
    | timeout =>
      refine ⟨fun e _ => ?_, fun tok h => ?_⟩
      · simp [OptiCmsClient.authenticate, hc]
      · simp [OptiCmsClient.authenticate, hc] at h
    | netError e2 =>
      refine ⟨fun e _ => ?_, fun tok h => ?_⟩
      · simp [OptiCmsClient.authenticate, hc]
      · simp [OptiCmsClient.authenticate, hc] at h

/-- Witness for C10: a timed-out exchange leaves the state untouched. -/
theorem authenticate_atomic_token_state_witness :
    (OptiCmsClient.authenticate credSettings extState none 0
        TokenExchangeOutcome.timeout).1 = extState :=
  (authenticate_atomic_token_state credSettings extState none 0
      TokenExchangeOutcome.timeout).1
    (CmsError.apiError authTimeoutError) rfl

/-- C1 counterexample: a client holding an access token with no recorded
expiry, auto-refresh at its default (on) and no credentials configured makes
ensureAuthenticated fail, and the same state with credentials configured
makes it perform a token exchange — contradicting the claim that such a
token is treated as never-expiring regardless of the autoRefresh setting and
of the configured credentials. -/
theorem ensureAuthenticated_external_token_cex :
    (OptiCmsClient.ensureAuthenticated extSettings extState 1700000000000
        TokenExchangeOutcome.timeout).2.2
      = Except.error (CmsError.configError
          "No access token available and no credentials configured for authentication")
    ∧ (OptiCmsClient.ensureAuthenticated credSettings extState 1700000000000
        TokenExchangeOutcome.timeout).2.1
      = [NetCall.tokenExchange] := by
  constructor <;> rfl

/-- C1 amended: a held token with no recorded expiry is treated as
never-expiring only when auto-refresh is disabled: then ensureAuthenticated
performs no token exchange, does not fail and leaves the state unchanged.
When auto-refresh is enabled such a token counts as expired, and
ensureAuthenticated fails with the configuration error if no credentials are
configured, else performs a token exchange. -/
theorem ensureAuthenticated_external_token_amended (s : ClientSettings)
    (st : ClientState) (now : Int) (authO : TokenExchangeOutcome)
    (htok : OptiCmsClient.tokenTruthy st = true)
    (hexp : st.tokenExpiresAt = none) :
    (s.autoRefreshToken = false →
      OptiCmsClient.ensureAuthenticated s st now authO = (st, [], Except.ok ()))
    ∧ (s.autoRefreshToken = true → s.credentials = none →
      OptiCmsClient.ensureAuthenticated s st now authO
        = (st, [], Except.error (CmsError.configError
            "No access token available and no credentials configured for authentication")))
    ∧ (s.autoRefreshToken = true → ∀ c, s.credentials = some c →
      (OptiCmsClient.ensureAuthenticated s st now authO).2.1 = [NetCall.tokenExchange]) := by
  have hexp2 : OptiCmsClient.isTokenExpired st now = true := by
    simp [OptiCmsClient.isTokenExpired, hexp]
  refine ⟨?_, ?_, ?_⟩
  · intro har
    have hna : OptiCmsClient.needsAuth s st now = false := by
      simp [OptiCmsClient.needsAuth, htok, har]
    simp [OptiCmsClient.ensureAuthenticated, hna]
  · intro har hcred
    have hna : OptiCmsClient.needsAuth s st now = true := by
      simp [OptiCmsClient.needsAuth, hexp2, har]
    simp [OptiCmsClient.ensureAuthenticated, hna, hcred]
  · intro har c hcred
    have hna : OptiCmsClient.needsAuth s st now = true := by
      simp [OptiCmsClient.needsAuth, hexp2, har]
    cases authO <;>
      simp [OptiCmsClient.ensureAuthenticated, hna, hcred,
        OptiCmsClient.authenticate, resolveCreds]

/-- Witness for the amended C1: auto-refresh disabled, external token kept. -/
theorem ensureAuthenticated_external_token_amended_witness :
    OptiCmsClient.ensureAuthenticated noRefreshSettings extState 0
        TokenExchangeOutcome.timeout
      = (extState, [], Except.ok ()) :=
  (ensureAuthenticated_external_token_amended noRefreshSettings extState 0
      TokenExchangeOutcome.timeout (by decide) rfl).1 rfl

/-- C2 counterexample: when a lifetime was recorded earlier, calling
setAccessToken with the lifetime omitted keeps the stale expiry: afterwards
getTokenExpiresAt still reports the old expiry, not no expiry as the claim
states. -/
theorem setAccessToken_stale_expiry_cex :
    OptiCmsClient.getTokenExpiresAt
        (OptiCmsClient.setAccessToken cexPrevState 1700000005000 "new-token" none)
      = some 1700000000000
    ∧ OptiCmsClient.getTokenExpiresAt
        (OptiCmsClient.setAccessToken cexPrevState 1700000005000 "new-token" none)
      ≠ none := by
  exact ⟨rfl, by decide⟩

/-- C2 amended: setAccessToken with the lifetime omitted stores the token
and leaves the recorded expiry exactly as it was: only when no expiry was
recorded before is the token afterwards treated as non-expiring
(getTokenExpiresAt reports no expiry). -/
theorem setAccessToken_omitted_lifetime_amended (st : ClientState) (now : Int)
    (token : String) :
    (OptiCmsClient.setAccessToken st now token none).accessToken = some token
    ∧ (OptiCmsClient.setAccessToken st now token none).tokenExpiresAt
      = st.tokenExpiresAt
    ∧ (st.tokenExpiresAt = none →
        OptiCmsClient.getTokenExpiresAt
          (OptiCmsClient.setAccessToken st now token none) = none) := by
  refine ⟨rfl, rfl, fun h => ?_⟩
  simp [OptiCmsClient.getTokenExpiresAt, OptiCmsClient.setAccessToken, h]

/-- Witness for the amended C2 on a state with no recorded expiry. -/
theorem setAccessToken_omitted_lifetime_amended_witness :
    OptiCmsClient.getTokenExpiresAt
        (OptiCmsClient.setAccessToken extState 0 "tkn" none) = none :=
  (setAccessToken_omitted_lifetime_amended extState 0 "tkn").2.2 rfl

/-- C6: a token exchange whose transport is aborted by the timeout timer
fails with the fixed ApiError of status 408 and code TIMEOUT, and so does
every dispatch; an opaque transport error, in contrast, is rethrown as-is
and is not an ApiError. -/
theorem timeout_yields_408_timeout_error (α : Type) (s : ClientSettings)
    (st : ClientState) (credsArg : Option OAuthCredentials) (endpoint : String)
    (opts : RequestOptions) (method : Option String) (hasBody : Bool)
    (now : Int) (authO : TokenExchangeOutcome)
    (hcreds : (resolveCreds credsArg s.credentials).isSome = true)
    (he : (OptiCmsClient.ensureAuthenticated s st now authO).2.2 = Except.ok ()) :
    (OptiCmsClient.authenticate s st credsArg now TokenExchangeOutcome.timeout).2.2
      = Except.error (CmsError.apiError authTimeoutError)
    ∧ authTimeoutError.status = 408
    ∧ authTimeoutError.code = some "TIMEOUT"
    ∧ (OptiCmsClient.request s st endpoint opts method hasBody now authO
        (FetchOutcome.timeout : FetchOutcome α)).2.2
      = Except.error (CmsError.apiError requestTimeoutError)
    ∧ requestTimeoutError.status = 408
    ∧ requestTimeoutError.code = some "TIMEOUT"
    ∧ ∀ e2, (OptiCmsClient.request s st endpoint opts method hasBody now authO
        (FetchOutcome.netError e2 : FetchOutcome α)).2.2
      = Except.error (CmsError.transport e2) := by
  refine ⟨?_, rfl, rfl, ?_, rfl, rfl, ?_⟩
  · cases hc : resolveCreds credsArg s.credentials with
    | none => rw [hc] at hcreds; simp at hcreds
    | some c => simp [OptiCmsClient.authenticate, hc]
  · rw [request_of_ensure_ok _ _ _ _ _ _ _ _ _ he]
    rfl
  · intro e2
    rw [request_of_ensure_ok _ _ _ _ _ _ _ _ _ he]
    rfl

/-- Witness for C6 on a concrete client and exchange. -/
theorem timeout_yields_408_timeout_error_witness :
    (OptiCmsClient.authenticate noRefreshSettings extState (some sampleCreds) 0
        TokenExchangeOutcome.timeout).2.2
      = Except.error (CmsError.apiError authTimeoutError) :=
  (timeout_yields_408_timeout_error ContentItem noRefreshSettings extState
      (some sampleCreds) "/content/x" ⟨[], [], none⟩ none false 0
      TokenExchangeOutcome.timeout (by decide) (by decide)).1

/-- C7 counterexample: a 404 response whose structured body carries the
present-but-empty type field does not keep that field: the client backfills
it with the generic about:blank default, contradicting the claim that
present fields populate the error. -/
theorem request_error_backfill_cex :
    (OptiCmsClient.request noRefreshSettings extState "/content/x" ⟨[], [], none⟩
        none false 0 TokenExchangeOutcome.timeout
        (FetchOutcome.httpError 404 (some cexErrBody) : FetchOutcome ContentItem)).2.2
      ≠ Except.error (CmsError.apiError (claimedErrorMerge 404 cexErrBody))
    ∧ (claimedErrorMerge 404 cexErrBody).type = ""
    ∧ (OptiCmsClient.request noRefreshSettings extState "/content/x" ⟨[], [], none⟩
        none false 0 TokenExchangeOutcome.timeout
        (FetchOutcome.httpError 404 (some cexErrBody) : FetchOutcome ContentItem)).2.2
      = Except.error (CmsError.apiError
          { type := "about:blank", title := "Not Found", status := 404,
            inst := none, details := none, code := none, errors := none }) := by
  refine ⟨by decide, rfl, by decide⟩

/-- C7 amended: a non-2xx response yields an ApiError; an unparseable body
keeps the original HTTP status and a generic status-derived title and type,
while a parsed structured body populates the error from its truthy fields:
nonempty type/title and nonzero status are taken from the body, absent,
empty or zero type/title/status fall back to the status-derived defaults,
and instance/details/code/errors are taken from the body as-is. -/
theorem request_error_backfill_amended (α : Type) (s : ClientSettings)
    (st : ClientState) (endpoint : String) (opts : RequestOptions)
    (method : Option String) (hasBody : Bool) (now : Int)
    (authO : TokenExchangeOutcome) (status : Nat) (p : PartialErrorResponse)
    (he : (OptiCmsClient.ensureAuthenticated s st now authO).2.2 = Except.ok ()) :
    (OptiCmsClient.request s st endpoint opts method hasBody now authO
        (FetchOutcome.httpError status none : FetchOutcome α)).2.2
      = Except.error (CmsError.apiError
          (defaultHttpError "Request failed with status " status))
    ∧ (defaultHttpError "Request failed with status " status).status = status
    ∧ (defaultHttpError "Request failed with status " status).title
      = "Request failed with status " ++ toString status
    ∧ (defaultHttpError "Request failed with status " status).type = "about:blank"
    ∧ (OptiCmsClient.request s st endpoint opts method hasBody now authO
        (FetchOutcome.httpError status (some p) : FetchOutcome α)).2.2
      = Except.error (CmsError.apiError (mergeErrorBody
          (defaultHttpError "Request failed with status " status) (some p)))
    ∧ (mergeErrorBody (defaultHttpError "Request failed with status " status) (some p)).type
      = (match p.type with
         | some t => if t = "" then "about:blank" else t
         | none => "about:blank")
    ∧ (mergeErrorBody (defaultHttpError "Request failed with status " status) (some p)).title
      = (match p.title with
         | some t => if t = "" then "Request failed with status " ++ toString status else t
         | none => "Request failed with status " ++ toString status)
    ∧ (mergeErrorBody (defaultHttpError "Request failed with status " status) (some p)).status
      = (match p.status with
         | some n => if n = 0 then status else n
         | none => status)
    ∧ (mergeErrorBody (defaultHttpError "Request failed with status " status) (some p)).inst
      = p.inst
    ∧ (mergeErrorBody (defaultHttpError "Request failed with status " status) (some p)).details
      = p.details
    ∧ (mergeErrorBody (defaultHttpError "Request failed with status " status) (some p)).code
      = p.code
    ∧ (mergeErrorBody (defaultHttpError "Request failed with status " status) (some p)).errors
      = p.errors := by
  refine ⟨?_, rfl, rfl, rfl, ?_, ?_, ?_, ?_, rfl, rfl, rfl, rfl⟩
  · rw [request_of_ensure_ok _ _ _ _ _ _ _ _ _ he]
    rfl
  · rw [request_of_ensure_ok _ _ _ _ _ _ _ _ _ he]
    rfl
  · cases hp : p.type <;> simp [mergeErrorBody, jsOrStr, defaultHttpError, hp]
  · cases hp : p.title <;> simp [mergeErrorBody, jsOrStr, defaultHttpError, hp]
  · cases hp : p.status <;> simp [mergeErrorBody, jsOrNat, defaultHttpError, hp]

/-- Witness for the amended C7 on a concrete dispatch. -/
theorem request_error_backfill_amended_witness :
    (OptiCmsClient.request noRefreshSettings extState "/content/x" ⟨[], [], none⟩
        none false 0 TokenExchangeOutcome.timeout
        (FetchOutcome.httpError 500 none : FetchOutcome ContentItem)).2.2
      = Except.error (CmsError.apiError
          (defaultHttpError "Request failed with status " 500)) :=
  (request_error_backfill_amended ContentItem noRefreshSettings extState
      "/content/x" ⟨[], [], none⟩ none false 0 TokenExchangeOutcome.timeout 500
      { type := none, title := none, status := none, inst := none,
        details := none, code := none, errors := none }
      (by decide)).1

/-- C8: headers of a dispatched request are merged in priority order default
headers, then per-call headers, then the bearer Authorization header when a
truthy token is present, then the PATCH merge-patch content type, then
If-Match from a truthy etag; in particular a PATCH dispatch with an etag
sends If-Match equal to that exact value and the merge-patch content type
overriding any caller-supplied one, and the dispatcher sends exactly these
merged headers. -/
theorem patch_headers_merge_priority (defaults caller : Obj String)
    (tok : Option String) (etag : String) (hetag : etag ≠ "") :
    objGet (buildHeaders defaults caller tok (some "PATCH") (some etag)) "If-Match"
      = some etag
    ∧ objGet (buildHeaders defaults caller tok (some "PATCH") (some etag)) "Content-Type"
      = some "application/merge-patch+json"
    ∧ (∀ t, tok = some t → t ≠ "" →
        objGet (buildHeaders defaults caller tok (some "PATCH") (some etag)) "Authorization"
          = some ("Bearer " ++ t))
    ∧ (∀ k, k ≠ "If-Match" → k ≠ "Content-Type" → k ≠ "Authorization" →
        objGet (buildHeaders defaults caller tok (some "PATCH") (some etag)) k
          = objLookupOr (objGet (objSpread ([] : Obj String) caller) k)
              (objGet defaults k))
    ∧ ∀ (s : ClientSettings) (st : ClientState) (endpoint : String)
        (opts : RequestOptions) (hasBody : Bool) (now : Int)
        (authO : TokenExchangeOutcome) (fo : FetchOutcome ContentItem),
        (OptiCmsClient.ensureAuthenticated s st now authO).2.2 = Except.ok () →
        (OptiCmsClient.request s st endpoint opts (some "PATCH") hasBody now authO fo).2.1
          = (OptiCmsClient.ensureAuthenticated s st now authO).2.1
            ++ [NetCall.fetch (s.baseUrl ++ endpoint) "PATCH"
                 (buildHeaders s.defaultHeaders opts.headers
                   (OptiCmsClient.ensureAuthenticated s st now authO).1.accessToken
                   (some "PATCH") opts.etag)
                 (serializeParams opts.params) hasBody] := by
  have hb : buildHeaders defaults caller tok (some "PATCH") (some etag)
      = objInsert (objInsert
          (match tok with
           | some t =>
             if t = "" then objSpread defaults caller
             else objInsert (objSpread defaults caller) "Authorization" ("Bearer " ++ t)
           | none => objSpread defaults caller)
          "Content-Type" "application/merge-patch+json") "If-Match" etag := by
    simp [buildHeaders, hetag]
  refine ⟨?_, ?_, ?_, ?_, ?_⟩
  · rw [hb, objGet_insert_self]
  · rw [hb,
      objGet_insert_ne _ _ _ _ (by decide : ("Content-Type" : String) ≠ "If-Match"),
      objGet_insert_self]
  · intro t ht htne
    subst ht
    rw [hb,
      objGet_insert_ne _ _ _ _ (by decide : ("Authorization" : String) ≠ "If-Match"),
      objGet_insert_ne _ _ _ _ (by decide : ("Authorization" : String) ≠ "Content-Type")]
    simp [htne, objGet_insert_self]
  · intro k h1 h2 h3
    rw [hb, objGet_insert_ne _ _ _ _ h1, objGet_insert_ne _ _ _ _ h2]
    have hbase : objGet
        (match tok with
         | some t =>
           if t = "" then objSpread defaults caller
           else objInsert (objSpread defaults caller) "Authorization" ("Bearer " ++ t)
         | none => objSpread defaults caller) k
        = objGet (objSpread defaults caller) k := by
      cases tok with
      | none => rfl
      | some t =>
        by_cases ht : t = ""
        · simp [ht]
        · simp [ht, objGet_insert_ne _ _ _ _ h3]
    rw [hbase, objGet_spread]
  · intro s st endpoint opts hasBody now authO fo hok
    rw [request_of_ensure_ok _ _ _ _ _ _ _ _ _ hok]
    rfl

/-- Witness for C8 on concrete headers. -/
theorem patch_headers_merge_priority_witness :
    objGet (buildHeaders [("Content-Type", "application/json")] [("X-Trace", "1")]
        (some "tok") (some "PATCH") (some "v-7")) "If-Match" = some "v-7" :=
  (patch_headers_merge_priority [("Content-Type", "application/json")]
      [("X-Trace", "1")] (some "tok") "v-7" (by decide)).1

/-- C9 counterexample: when the caller-supplied params already contain a
pageSize key, the supplied pageSize overwrites it in place, so the injected
page params are not appended in order after the caller params: the resulting
entry order is pageSize then pageIndex, not the claimed order. -/
theorem listContent_params_order_cex :
    OptiCmsClient.listContentParams [("pageSize", ParamValue.num 9)] (some 1) (some 50)
      = [("pageSize", ParamValue.num 50), ("pageIndex", ParamValue.num 1)]
    ∧ OptiCmsClient.listContentParams [("pageSize", ParamValue.num 9)] (some 1) (some 50)
      ≠ claimedListParams [("pageSize", ParamValue.num 9)] (some 1) (some 50)
    ∧ (OptiCmsClient.listContentParams [("pageSize", ParamValue.num 9)]
        (some 1) (some 50)).map Prod.fst
      = ["pageSize", "pageIndex"] := by
  refine ⟨rfl, by decide, rfl⟩

/-- C9 amended: pageIndex and pageSize are injected only when explicitly
supplied and are assigned after the caller-supplied params; when the caller
params do not contain pageIndex or pageSize keys themselves (and have
pairwise distinct keys) the injected entries are appended in that order
after the caller params, the dispatched GET carries exactly the serialized
params, and listContent returns the unwrapped paged structure rather than
the ApiResult wrapper. -/
theorem listContent_params_unwrap_amended (s : ClientSettings) (st : ClientState)
    (containerKey : String) (opts : RequestOptions) (pgi psz : Option Int)
    (now : Int) (authO : TokenExchangeOutcome)
    (page : PaginatedResponse ContentItem) (status : Nat) (etagH : Option String)
    (hnodup : (opts.params.map Prod.fst).Nodup)
    (hfresh : ∀ p ∈ opts.params, p.1 ≠ "pageIndex" ∧ p.1 ≠ "pageSize")
    (he : (OptiCmsClient.ensureAuthenticated s st now authO).2.2 = Except.ok ()) :
    OptiCmsClient.listContentParams opts.params pgi psz
      = claimedListParams opts.params pgi psz
    ∧ (OptiCmsClient.listContent s st containerKey opts pgi psz now authO
        (FetchOutcome.httpOk status (some page) etagH)).2.2 = Except.ok page
    ∧ (OptiCmsClient.listContent s st containerKey opts pgi psz now authO
        (FetchOutcome.httpOk status (some page) etagH)).2.1
      = (OptiCmsClient.ensureAuthenticated s st now authO).2.1
        ++ [NetCall.fetch
             (s.baseUrl ++ ("/experimental/content/" ++ containerKey ++ "/items")) "GET"
             (buildHeaders s.defaultHeaders opts.headers
               (OptiCmsClient.ensureAuthenticated s st now authO).1.accessToken
               none opts.etag)
             (serializeParams (OptiCmsClient.listContentParams opts.params pgi psz))
             false] := by
  have hspread : objSpread [] opts.params = opts.params :=
    objSpread_nil_of_nodup _ hnodup
  have h1 : OptiCmsClient.listContentParams opts.params pgi psz
      = claimedListParams opts.params pgi psz := by
    cases pgi with
    | none =>
      cases psz with
      | none =>
        simp [OptiCmsClient.listContentParams, claimedListParams, hspread]
      | some n =>
        simp only [OptiCmsClient.listContentParams, claimedListParams, hspread]
        rw [objInsert_eq_append _ _ _ (fun q hq => (hfresh q hq).2)]
        simp
    | some i =>
      cases psz with
      | none =>
        simp only [OptiCmsClient.listContentParams, claimedListParams, hspread]
        rw [objInsert_eq_append _ _ _ (fun q hq => (hfresh q hq).1)]
        simp
      | some n =>
        have hfresh2 : ∀ q ∈ opts.params ++ [("pageIndex", ParamValue.num i)],
            q.1 ≠ "pageSize" := by
          intro q hq
          rcases List.mem_append.mp hq with hqa | hqb
          · exact (hfresh q hqa).2
          · have hq2 : q = ("pageIndex", ParamValue.num i) := by simpa using hqb
            subst hq2
            exact (by decide : ("pageIndex" : String) ≠ "pageSize")
        simp only [OptiCmsClient.listContentParams, claimedListParams, hspread]
        rw [objInsert_eq_append _ _ _ (fun q hq => (hfresh q hq).1)]
        rw [objInsert_eq_append _ _ _ hfresh2]
  have hreq := request_of_ensure_ok s st
      ("/experimental/content/" ++ containerKey ++ "/items")
      ⟨opts.headers, OptiCmsClient.listContentParams opts.params pgi psz, opts.etag⟩
      none false now authO (FetchOutcome.httpOk status (some page) etagH) he
  refine ⟨h1, ?_, ?_⟩
  · simp only [OptiCmsClient.listContent]
    rw [hreq]
    rfl
  · simp only [OptiCmsClient.listContent]
    rw [hreq]
    rfl

/-- Witness for the amended C9 on a concrete paged call. -/
theorem listContent_params_unwrap_amended_witness :
    (OptiCmsClient.listContent noRefreshSettings extState "c1" ⟨[], [], none⟩
        (some 1) (some 50) 0 TokenExchangeOutcome.timeout
        (FetchOutcome.httpOk 200 (some samplePage) none)).2.2
      = Except.ok samplePage :=
  (listContent_params_unwrap_amended noRefreshSettings extState "c1" ⟨[], [], none⟩
      (some 1) (some 50) 0 TokenExchangeOutcome.timeout samplePage 200 none
      (by simp) (by simp) (by decide)).2.1

end OptiCms
